import Mathlib

/-!
Verification of the Monte Carlo integrator pipeline of the polaris renderer
(tracer/opencl/pipeline.go).

The integrator is embedded shallowly: every call it issues to the device
resource gateway (kernel dispatches, debug-buffer readbacks, debug image file
creation and encoding) is recorded in a trace, and the outcome of each call is
supplied by an oracle of type DeviceCall → Option ε.  A run therefore returns
the list of calls actually made together with the first error encountered (or
none).  Wall-clock durations returned by the Go code (time.Since(start)) are
real time and are not part of the embedding.
-/

namespace PolarisCL

/-- Device kind, from the device package referenced by pipeline.go
(tr.device.Type == device.GpuDevice). -/
inductive DeviceType where
  | cpuDevice
  | gpuDevice
  deriving DecidableEq, Repr

/-- One call made by the integrator to the device resource gateway or, for
debug captures, to the host file system / image encoder.  The arguments are
the ones the Go code passes (the blockReq argument of the debug kernels is the
request threaded through the whole run and is left implicit). -/
inductive DeviceCall where
  | rayPacketIntersectionQuery (rayBufferIndex : Nat) (numRays : Nat)
  | rayIntersectionQuery (rayBufferIndex : Nat) (numRays : Nat)
  | rayIntersectionTest (rayBufferIndex : Nat) (numRays : Nat)
  | shadePrimaryRayMisses (diffuseMatIndex : Nat) (rayBufferIndex : Nat) (numRays : Nat)
  | shadeIndirectRayMisses (diffuseMatIndex : Nat) (rayBufferIndex : Nat) (numRays : Nat)
  | shadeHits (bounce : Nat) (minBouncesForRR : Nat) (randSeed : Nat) (numEmissives : Nat)
      (rayBufferIndex : Nat) (numRays : Nat)
  | accumulateEmissiveSamples (rayBufferIndex : Nat) (numRays : Nat)
  | debugRayIntersectionDepth (rayBufferIndex : Nat)
  | debugRayIntersectionNormals (rayBufferIndex : Nat)
  | debugThroughput
  | debugEmissiveSamples (maskOccluded : Nat) (maskNotOccluded : Nat)
  | debugAccumulator
  | createFile (path : String)
  | readDebugBuffer
  | encodePng (path : String)
  deriving DecidableEq, Repr

/-- Modelled from the spec: the BlockRequest structure lives in the tracer
package, which is not under src/; spec section 3 lists its fields.  Only the
fields the integrator reads are given (exposure, a float, and the signalling
channels are not used by the integrator).  All integer fields are uint32 in
the source. -/
structure BlockRequest where
  blockY : Nat
  blockH : Nat
  frameW : Nat
  frameH : Nat
  samplesPerPixel : Nat
  numBounces : Nat
  minBouncesForRR : Nat
  deriving DecidableEq, Repr

/-- The tracer state the integrator reads: the device kind, the scene data
(SceneDiffuseMatIndex, an int32 with -1 meaning no background material, and
the length of EmissivePrimitives), the device resource gateway (dev, the
oracle answering every device/file call) and the stream of per-bounce random
seeds (rand.Uint32() is called once per bounce). -/
structure TracerState (ε : Type) where
  deviceType : DeviceType
  sceneDiffuseMatIndex : Int
  emissivePrimitivesLen : Nat
  dev : DeviceCall → Option ε
  seeds : Nat → Nat

/-- The result of running a fragment of the integrator: the calls made, in
order, and the error it returned (none = nil). -/
abbrev RunResult (ε : Type) := List DeviceCall × Option ε

/-! Debug flag constants.  In the Go source the const block reads
NoDebug = 0 (iota 0) and then PrimaryRayIntersectionDepth = 1 << iota at
iota = 1, with the following constants repeating that expression at
iota = 2, 3, ...  The values below are therefore the Go values. -/

def NoDebug : Nat := 0

def PrimaryRayIntersectionDepth : Nat := 1 <<< 1

def PrimaryRayIntersectionNormals : Nat := 1 <<< 2

def AllEmissiveSamples : Nat := 1 <<< 3

def VisibleEmissiveSamples : Nat := 1 <<< 4

def OccludedEmissiveSamples : Nat := 1 <<< 5

def Throughput : Nat := 1 <<< 6

def Accumulator : Nat := 1 <<< 7

def FrameBuffer : Nat := 1 <<< 8

/-- Record a single device call and its oracle outcome. -/
def stepCall (dev : DeviceCall → Option ε) (c : DeviceCall) : RunResult ε :=
  ([c], dev c)

/-- Sequence two fragments: the Go pattern of running a call and returning
immediately when err != nil.  When the first fragment fails its error is
returned and the second fragment never runs. -/
def seqR (a b : RunResult ε) : RunResult ε :=
  match a.2 with
  | some e => (a.1, some e)
  | none => (a.1 ++ b.1, b.2)

/-- Zero-padding of fmt.Sprintf with the %03d verb. -/
def pad3 (n : Nat) : String :=
  let s := toString n
  if s.length < 3 then String.mk (List.replicate (3 - s.length) '0') ++ s else s

/-- File name built per bounce, fmt.Sprintf(stem ++ "%03d.png", bounce). -/
def bounceFile (stem : String) (bounce : Nat) : String :=
  stem ++ pad3 bounce ++ ".png"

/-- dumpDebugBuffer from pipeline.go: if the preceding debug kernel call
failed, return its error at once; otherwise create the image file, read the
debug output buffer into the image, and png-encode it, stopping at the first
failure.  frameW and frameH only size the host image and do not influence
which calls are made. -/
def dumpDebugBuffer (dev : DeviceCall → Option ε) (debugKernelError : Option ε)
    (frameW frameH : Nat) (imgFile : String) : RunResult ε :=
  match debugKernelError with
  | some e => ([], some e)
  | none =>
    match dev (DeviceCall.createFile imgFile) with
    | some e => ([DeviceCall.createFile imgFile], some e)
    | none =>
      match dev DeviceCall.readDebugBuffer with
      | some e => ([DeviceCall.createFile imgFile, DeviceCall.readDebugBuffer], some e)
      | none =>
        ([DeviceCall.createFile imgFile, DeviceCall.readDebugBuffer,
          DeviceCall.encodePng imgFile],
         dev (DeviceCall.encodePng imgFile))

/-- The repeated capture pattern of the integrator: when the flag is set, run
the debug kernel, feed its error into dumpDebugBuffer, and abort on any
resulting error; when the flag is clear, do nothing. -/
def debugCapture (dev : DeviceCall → Option ε) (enabled : Bool) (kernelCall : DeviceCall)
    (frameW frameH : Nat) (imgFile : String) : RunResult ε :=
  if enabled then
    let dmp := dumpDebugBuffer dev (dev kernelCall) frameW frameH imgFile
    (kernelCall :: dmp.1, dmp.2)
  else ([], none)

/-- The miss-shading step of one bounce: skipped entirely when the scene has
no background material (SceneDiffuseMatIndex == -1); otherwise
ShadePrimaryRayMisses at bounce 0 and ShadeIndirectRayMisses at later
bounces, with the int32 material index converted to uint32 as in Go. -/
def shadeMissesStep (tr : TracerState ε) (bounce activeRayBuf numPixels : Nat) : RunResult ε :=
  if tr.sceneDiffuseMatIndex ≠ -1 then
    if bounce = 0 then
      stepCall tr.dev (DeviceCall.shadePrimaryRayMisses
        (Int.toNat (tr.sceneDiffuseMatIndex % (2 ^ 32))) activeRayBuf numPixels)
    else
      stepCall tr.dev (DeviceCall.shadeIndirectRayMisses
        (Int.toNat (tr.sceneDiffuseMatIndex % (2 ^ 32))) activeRayBuf numPixels)
  else ([], none)

/-- The body of one iteration of the integrator bounce loop (miss shading,
hit shading, throughput capture, occlusion intersection test on ray buffer 2,
emissive accumulation on ray buffer 2, and the emissive/accumulator
captures). -/
def bounceIter (debugFlags : Nat) (tr : TracerState ε) (blockReq : BlockRequest)
    (numPixels numEmissives bounce activeRayBuf : Nat) : RunResult ε :=
  seqR (shadeMissesStep tr bounce activeRayBuf numPixels)
  (seqR (stepCall tr.dev (DeviceCall.shadeHits bounce blockReq.minBouncesForRR
      (tr.seeds bounce) numEmissives activeRayBuf numPixels))
  (seqR (debugCapture tr.dev (debugFlags &&& Throughput == Throughput)
      DeviceCall.debugThroughput blockReq.frameW blockReq.frameH
      (bounceFile "debug-throughput-" bounce))
  (seqR (stepCall tr.dev (DeviceCall.rayIntersectionTest 2 numPixels))
  (seqR (stepCall tr.dev (DeviceCall.accumulateEmissiveSamples 2 numPixels))
  (seqR (debugCapture tr.dev (debugFlags &&& AllEmissiveSamples == AllEmissiveSamples)
      (DeviceCall.debugEmissiveSamples 0 0) blockReq.frameW blockReq.frameH
      (bounceFile "debug-emissive-all-" bounce))
  (seqR (debugCapture tr.dev (debugFlags &&& VisibleEmissiveSamples == VisibleEmissiveSamples)
      (DeviceCall.debugEmissiveSamples 1 0) blockReq.frameW blockReq.frameH
      (bounceFile "debug-emissive-vis-" bounce))
  (seqR (debugCapture tr.dev (debugFlags &&& OccludedEmissiveSamples == OccludedEmissiveSamples)
      (DeviceCall.debugEmissiveSamples 0 1) blockReq.frameW blockReq.frameH
      (bounceFile "debug-emissive-occ-" bounce))
  (debugCapture tr.dev (debugFlags &&& Accumulator == Accumulator)
      DeviceCall.debugAccumulator blockReq.frameW blockReq.frameH
      (bounceFile "debug-accumulator-" bounce)))))))))

/-- The bounce loop: the fuel argument is the number of remaining iterations
(the loop runs for bounce = 0 .. numBounces-1, so it is entered with fuel =
numBounces).  After an iteration, when another bounce follows
(bounce + 1 < numBounces), the active ray buffer index is flipped and the new
active buffer is intersected against the scene. -/
def bounceLoop (debugFlags : Nat) (tr : TracerState ε) (blockReq : BlockRequest)
    (numPixels numEmissives : Nat) : Nat → Nat → Nat → RunResult ε
  | 0, _, _ => ([], none)
  | fuel + 1, bounce, activeRayBuf =>
    seqR (bounceIter debugFlags tr blockReq numPixels numEmissives bounce activeRayBuf)
      (if bounce + 1 < blockReq.numBounces then
        seqR (stepCall tr.dev (DeviceCall.rayIntersectionQuery (1 - activeRayBuf) numPixels))
          (bounceLoop debugFlags tr blockReq numPixels numEmissives fuel (bounce + 1)
            (1 - activeRayBuf))
      else
        bounceLoop debugFlags tr blockReq numPixels numEmissives fuel (bounce + 1) activeRayBuf)

/-- MonteCarloIntegrator from pipeline.go.  numPixels = FrameW * BlockH as
uint32 arithmetic, numEmissives = uint32(len(EmissivePrimitives)); the active
ray buffer starts at 0, primary rays are intersected with the packet query on
GPU devices and the plain query otherwise, the two optional primary-ray
captures run, and then the bounce loop. -/
def monteCarloIntegrator (debugFlags : Nat) (tr : TracerState ε)
    (blockReq : BlockRequest) : RunResult ε :=
  let numPixels := blockReq.frameW * blockReq.blockH % 2 ^ 32
  let numEmissives := tr.emissivePrimitivesLen % 2 ^ 32
  seqR (stepCall tr.dev
      (if tr.deviceType = DeviceType.gpuDevice then
        DeviceCall.rayPacketIntersectionQuery 0 numPixels
      else
        DeviceCall.rayIntersectionQuery 0 numPixels))
  (seqR (debugCapture tr.dev
      (debugFlags &&& PrimaryRayIntersectionDepth == PrimaryRayIntersectionDepth)
      (DeviceCall.debugRayIntersectionDepth 0) blockReq.frameW blockReq.frameH
      "debug-primary-intersection-depth.png")
  (seqR (debugCapture tr.dev
      (debugFlags &&& PrimaryRayIntersectionNormals == PrimaryRayIntersectionNormals)
      (DeviceCall.debugRayIntersectionNormals 0) blockReq.frameW blockReq.frameH
      "debug-primary-intersection-normals.png")
  (bounceLoop debugFlags tr blockReq numPixels numEmissives blockReq.numBounces 0 0)))

/-! Spec-modelled primary-ray intersection semantics.

Modelled from the spec: the intersection kernels themselves (the OpenCL
sources behind RayIntersectionQuery and RayPacketIntersectionQuery) are not
under src/; spec section 4.2 step 1 says the packet query is a batched form
of the per-ray query, a performance optimization with no semantic
difference.  The per-ray query intersects each ray independently; the packet
query processes rays in packets of four, applying the same per-ray
intersection to every ray of a packet. -/

/-- Modelled from the spec: per-ray intersection query — each ray of the
buffer is intersected independently by the scene intersection function. -/
def rayIntersectAll (intersect : ray → hit) (rays : List ray) : List hit :=
  rays.map intersect

/-- Modelled from the spec: packet intersection query — rays are taken in
packets of four and every ray of a packet is intersected by the same scene
intersection function; a trailing packet of fewer than four rays is
processed per ray. -/
def rayPacketIntersectAll (intersect : ray → hit) : List ray → List hit
  | a :: b :: c :: d :: rest =>
    intersect a :: intersect b :: intersect c :: intersect d ::
      rayPacketIntersectAll intersect rest
  | rays => rays.map intersect

/-- readCounter from pipeline.go: the counters oracle models
RayCounters[counterIndex].ReadData(0, 0, 4, out) as returning the error of the
read together with the value left in out[0]; the function never inspects the
error and returns out[0] regardless. -/
def readCounter (counters : Nat → Option ε × Nat) (counterIndex : Nat) : Nat :=
  (counters counterIndex).2

/-! The full-run call lists: the calls a fragment makes when no call fails.
Every run's trace is an initial segment of the corresponding list, and equals
it exactly when the fragment returns no error (proved below). -/

/-- The calls of a completed dumpDebugBuffer. -/
def dumpCalls (imgFile : String) : List DeviceCall :=
  [DeviceCall.createFile imgFile, DeviceCall.readDebugBuffer, DeviceCall.encodePng imgFile]

/-- The calls of a completed debug capture. -/
def captureCalls (enabled : Bool) (kernelCall : DeviceCall) (imgFile : String) :
    List DeviceCall :=
  if enabled then kernelCall :: dumpCalls imgFile else []

/-- The calls of a completed miss-shading step. -/
def missCalls (tr : TracerState ε) (bounce activeRayBuf numPixels : Nat) : List DeviceCall :=
  if tr.sceneDiffuseMatIndex ≠ -1 then
    [if bounce = 0 then
      DeviceCall.shadePrimaryRayMisses
        (Int.toNat (tr.sceneDiffuseMatIndex % (2 ^ 32))) activeRayBuf numPixels
    else
      DeviceCall.shadeIndirectRayMisses
        (Int.toNat (tr.sceneDiffuseMatIndex % (2 ^ 32))) activeRayBuf numPixels]
  else []

/-- The calls of a completed bounce-loop iteration body. -/
def iterCalls (debugFlags : Nat) (tr : TracerState ε) (blockReq : BlockRequest)
    (numPixels numEmissives bounce activeRayBuf : Nat) : List DeviceCall :=
  missCalls tr bounce activeRayBuf numPixels ++
  ([DeviceCall.shadeHits bounce blockReq.minBouncesForRR (tr.seeds bounce) numEmissives
      activeRayBuf numPixels] ++
  (captureCalls (debugFlags &&& Throughput == Throughput) DeviceCall.debugThroughput
      (bounceFile "debug-throughput-" bounce) ++
  ([DeviceCall.rayIntersectionTest 2 numPixels] ++
  ([DeviceCall.accumulateEmissiveSamples 2 numPixels] ++
  (captureCalls (debugFlags &&& AllEmissiveSamples == AllEmissiveSamples)
      (DeviceCall.debugEmissiveSamples 0 0) (bounceFile "debug-emissive-all-" bounce) ++
  (captureCalls (debugFlags &&& VisibleEmissiveSamples == VisibleEmissiveSamples)
      (DeviceCall.debugEmissiveSamples 1 0) (bounceFile "debug-emissive-vis-" bounce) ++
  (captureCalls (debugFlags &&& OccludedEmissiveSamples == OccludedEmissiveSamples)
      (DeviceCall.debugEmissiveSamples 0 1) (bounceFile "debug-emissive-occ-" bounce) ++
  captureCalls (debugFlags &&& Accumulator == Accumulator) DeviceCall.debugAccumulator
      (bounceFile "debug-accumulator-" bounce))))))))

/-- The calls of a completed bounce loop. -/
def loopCalls (debugFlags : Nat) (tr : TracerState ε) (blockReq : BlockRequest)
    (numPixels numEmissives : Nat) : Nat → Nat → Nat → List DeviceCall
  | 0, _, _ => []
  | fuel + 1, bounce, activeRayBuf =>
    iterCalls debugFlags tr blockReq numPixels numEmissives bounce activeRayBuf ++
    (if bounce + 1 < blockReq.numBounces then
      DeviceCall.rayIntersectionQuery (1 - activeRayBuf) numPixels ::
        loopCalls debugFlags tr blockReq numPixels numEmissives fuel (bounce + 1)
          (1 - activeRayBuf)
    else
      loopCalls debugFlags tr blockReq numPixels numEmissives fuel (bounce + 1) activeRayBuf)

/-- The calls of a completed integrator run. -/
def integratorCalls (debugFlags : Nat) (tr : TracerState ε) (blockReq : BlockRequest) :
    List DeviceCall :=
  (if tr.deviceType = DeviceType.gpuDevice then
    DeviceCall.rayPacketIntersectionQuery 0 (blockReq.frameW * blockReq.blockH % 2 ^ 32)
  else
    DeviceCall.rayIntersectionQuery 0 (blockReq.frameW * blockReq.blockH % 2 ^ 32)) ::
  (captureCalls (debugFlags &&& PrimaryRayIntersectionDepth == PrimaryRayIntersectionDepth)
      (DeviceCall.debugRayIntersectionDepth 0) "debug-primary-intersection-depth.png" ++
   (captureCalls (debugFlags &&& PrimaryRayIntersectionNormals == PrimaryRayIntersectionNormals)
      (DeviceCall.debugRayIntersectionNormals 0) "debug-primary-intersection-normals.png" ++
   loopCalls debugFlags tr blockReq (blockReq.frameW * blockReq.blockH % 2 ^ 32)
      (tr.emissivePrimitivesLen % 2 ^ 32) blockReq.numBounces 0 0))

/-! Classifiers and extractors over device calls. -/

/-- Intersection queries of the ping-pong ray buffers (per-ray form). -/
def isRayIntersectionQueryOp : DeviceCall → Bool
  | DeviceCall.rayIntersectionQuery _ _ => true
  | _ => false

/-- Any primary intersection query form (packet or per-ray). -/
def isIntersectionQueryOp : DeviceCall → Bool
  | DeviceCall.rayIntersectionQuery _ _ => true
  | DeviceCall.rayPacketIntersectionQuery _ _ => true
  | _ => false

/-- Miss-shading calls (either variant). -/
def isMissShadeOp : DeviceCall → Bool
  | DeviceCall.shadePrimaryRayMisses _ _ _ => true
  | DeviceCall.shadeIndirectRayMisses _ _ _ => true
  | _ => false

/-- Hit-shading calls. -/
def isShadeHitsOp : DeviceCall → Bool
  | DeviceCall.shadeHits _ _ _ _ _ _ => true
  | _ => false

/-- Occlusion-ray intersection tests. -/
def isIntersectionTestOp : DeviceCall → Bool
  | DeviceCall.rayIntersectionTest _ _ => true
  | _ => false

/-- Emissive-sample accumulation calls. -/
def isAccumulateOp : DeviceCall → Bool
  | DeviceCall.accumulateEmissiveSamples _ _ => true
  | _ => false

/-- Debug-only operations: debug kernels and the readback-and-encode side
effects of a capture. -/
def isDebugOp : DeviceCall → Bool
  | DeviceCall.debugRayIntersectionDepth _ => true
  | DeviceCall.debugRayIntersectionNormals _ => true
  | DeviceCall.debugThroughput => true
  | DeviceCall.debugEmissiveSamples _ _ => true
  | DeviceCall.debugAccumulator => true
  | DeviceCall.createFile _ => true
  | DeviceCall.readDebugBuffer => true
  | DeviceCall.encodePng _ => true
  | _ => false

/-- The ray buffer index of an occlusion-stage call (intersection test or
emissive accumulation), none for other calls. -/
def occlusionBufOf : DeviceCall → Option Nat
  | DeviceCall.rayIntersectionTest i _ => some i
  | DeviceCall.accumulateEmissiveSamples i _ => some i
  | _ => none

/-- The (bounce, ray buffer index) pair of a hit-shading call. -/
def shadeHitsBufOf : DeviceCall → Option (Nat × Nat)
  | DeviceCall.shadeHits b _ _ _ buf _ => some (b, buf)
  | _ => none

/-- The (bounce, buffer) pairs of all hit-shading calls of a trace, in
order. -/
def shadeHitsRayBufs (t : List DeviceCall) : List (Nat × Nat) :=
  t.filterMap shadeHitsBufOf

/-- The miss-shading calls of a trace, in order. -/
def missShadeSeq (t : List DeviceCall) : List DeviceCall :=
  t.filter isMissShadeOp

/-! Sequencing lemmas. -/

theorem seqR_some {a b : RunResult ε} {e : ε} (h : a.2 = some e) :
    seqR a b = (a.1, some e) := by
  simp [seqR, h]

theorem seqR_none {a b : RunResult ε} (h : a.2 = none) :
    seqR a b = (a.1 ++ b.1, b.2) := by
  simp [seqR, h]

/-! The first-error invariant: a fragment that returns no error made only
succeeding calls, and a fragment that returns an error made a run of
succeeding calls followed by exactly the one failing call that produced the
returned error, and then stopped. -/

def FirstErr (dev : DeviceCall → Option ε) (r : RunResult ε) : Prop :=
  (r.2 = none → ∀ c ∈ r.1, dev c = none) ∧
  ∀ e, r.2 = some e →
    ∃ t c, r.1 = t ++ [c] ∧ dev c = some e ∧ ∀ x ∈ t, dev x = none

theorem firstErr_ok {dev : DeviceCall → Option ε} {r : RunResult ε}
    (h2 : r.2 = none) (h1 : ∀ c ∈ r.1, dev c = none) : FirstErr dev r := by
  refine ⟨fun _ => h1, fun e he => ?_⟩
  rw [h2] at he
  exact Option.noConfusion he

theorem firstErr_fail {dev : DeviceCall → Option ε} {t : List DeviceCall} {c : DeviceCall}
    {e : ε} (hc : dev c = some e) (hall : ∀ x ∈ t, dev x = none) :
    FirstErr dev (t ++ [c], some e) := by
  refine ⟨fun h => Option.noConfusion h, fun e2 he2 => ?_⟩
  obtain rfl : e = e2 := Option.some.inj he2
  exact ⟨t, c, rfl, hc, hall⟩

theorem firstErr_nil (dev : DeviceCall → Option ε) : FirstErr dev ([], none) :=
  firstErr_ok rfl (by intro c hc; exact absurd hc (List.not_mem_nil c))

theorem firstErr_step (dev : DeviceCall → Option ε) (c : DeviceCall) :
    FirstErr dev (stepCall dev c) := by
  rcases h : dev c with _ | e
  · exact firstErr_ok h (by intro x hx; rcases List.mem_singleton.mp hx; exact h)
  · have : stepCall dev c = ([] ++ [c], some e) := by simp [stepCall, h]
    rw [this]
    exact firstErr_fail h (by intro x hx; exact absurd hx (List.not_mem_nil x))

theorem firstErr_seqR {dev : DeviceCall → Option ε} {a b : RunResult ε}
    (ha : FirstErr dev a) (hb : FirstErr dev b) : FirstErr dev (seqR a b) := by
  rcases h2 : a.2 with _ | e
  · rw [seqR_none h2]
    constructor
    · intro hbn c hc
      rcases List.mem_append.mp hc with hca | hcb
      · exact ha.1 h2 c hca
      · exact hb.1 hbn c hcb
    · intro e he
      rcases hb.2 e he with ⟨t, c, ht, hc, hall⟩
      refine ⟨a.1 ++ t, c, by rw [ht, List.append_assoc], hc, ?_⟩
      intro x hx
      rcases List.mem_append.mp hx with h | h
      · exact ha.1 h2 x h
      · exact hall x h
  · rw [seqR_some h2]
    constructor
    · intro h; exact Option.noConfusion h
    · intro e2 he2
      obtain rfl : e = e2 := Option.some.inj he2
      exact ha.2 _ h2

theorem firstErr_capture (dev : DeviceCall → Option ε) (enabled : Bool) (k : DeviceCall)
    (fw fh : Nat) (f : String) : FirstErr dev (debugCapture dev enabled k fw fh f) := by
  cases enabled
  · simpa [debugCapture] using firstErr_nil dev
  · show FirstErr dev (debugCapture dev true k fw fh f)
    rcases hk : dev k with _ | e
    · rcases hc : dev (DeviceCall.createFile f) with _ | e
      · rcases hr : dev DeviceCall.readDebugBuffer with _ | e
        · rcases he : dev (DeviceCall.encodePng f) with _ | e
          · refine firstErr_ok ?_ ?_
            · simp [debugCapture, dumpDebugBuffer, hk, hc, hr, he]
            · intro x hx
              simp [debugCapture, dumpDebugBuffer, hk, hc, hr] at hx
              rcases hx with rfl | rfl | rfl | rfl
              exacts [hk, hc, hr, he]
          · have hsh : debugCapture dev true k fw fh f =
                ([k, DeviceCall.createFile f, DeviceCall.readDebugBuffer] ++
                  [DeviceCall.encodePng f], some e) := by
              simp [debugCapture, dumpDebugBuffer, hk, hc, hr, he]
            rw [hsh]
            refine firstErr_fail he ?_
            intro x hx
            simp at hx
            rcases hx with rfl | rfl | rfl
            exacts [hk, hc, hr]
        · have hsh : debugCapture dev true k fw fh f =
              ([k, DeviceCall.createFile f] ++ [DeviceCall.readDebugBuffer], some e) := by
            simp [debugCapture, dumpDebugBuffer, hk, hc, hr]
          rw [hsh]
          refine firstErr_fail hr ?_
          intro x hx
          simp at hx
          rcases hx with rfl | rfl
          exacts [hk, hc]
      · have hsh : debugCapture dev true k fw fh f =
            ([k] ++ [DeviceCall.createFile f], some e) := by
          simp [debugCapture, dumpDebugBuffer, hk, hc]
        rw [hsh]
        refine firstErr_fail hc ?_
        intro x hx
        rcases List.mem_singleton.mp hx
        exact hk
    · have hsh : debugCapture dev true k fw fh f = ([] ++ [k], some e) := by
        simp [debugCapture, dumpDebugBuffer, hk]
      rw [hsh]
      exact firstErr_fail hk (by intro x hx; exact absurd hx (List.not_mem_nil x))

theorem firstErr_miss (tr : TracerState ε) (b buf np : Nat) :
    FirstErr tr.dev (shadeMissesStep tr b buf np) := by
  unfold shadeMissesStep
  split
  · split <;> exact firstErr_step tr.dev _
  · exact firstErr_nil tr.dev

theorem firstErr_iter (debugFlags : Nat) (tr : TracerState ε) (blockReq : BlockRequest)
    (np ne b buf : Nat) :
    FirstErr tr.dev (bounceIter debugFlags tr blockReq np ne b buf) := by
  unfold bounceIter
  exact firstErr_seqR (firstErr_miss tr b buf np)
    (firstErr_seqR (firstErr_step tr.dev _)
    (firstErr_seqR (firstErr_capture tr.dev _ _ _ _ _)
    (firstErr_seqR (firstErr_step tr.dev _)
    (firstErr_seqR (firstErr_step tr.dev _)
    (firstErr_seqR (firstErr_capture tr.dev _ _ _ _ _)
    (firstErr_seqR (firstErr_capture tr.dev _ _ _ _ _)
    (firstErr_seqR (firstErr_capture tr.dev _ _ _ _ _)
      (firstErr_capture tr.dev _ _ _ _ _))))))))

theorem firstErr_loop (debugFlags : Nat) (tr : TracerState ε) (blockReq : BlockRequest)
    (np ne : Nat) :
    ∀ fuel b buf, FirstErr tr.dev (bounceLoop debugFlags tr blockReq np ne fuel b buf)
  | 0, _, _ => firstErr_nil tr.dev
  | fuel + 1, b, buf => by
    show FirstErr tr.dev
      (seqR (bounceIter debugFlags tr blockReq np ne b buf)
        (if b + 1 < blockReq.numBounces then
          seqR (stepCall tr.dev (DeviceCall.rayIntersectionQuery (1 - buf) np))
            (bounceLoop debugFlags tr blockReq np ne fuel (b + 1) (1 - buf))
        else
          bounceLoop debugFlags tr blockReq np ne fuel (b + 1) buf))
    refine firstErr_seqR (firstErr_iter debugFlags tr blockReq np ne b buf) ?_
    split
    · exact firstErr_seqR (firstErr_step tr.dev _)
        (firstErr_loop debugFlags tr blockReq np ne fuel (b + 1) (1 - buf))
    · exact firstErr_loop debugFlags tr blockReq np ne fuel (b + 1) buf

theorem firstErr_integrator (debugFlags : Nat) (tr : TracerState ε) (blockReq : BlockRequest) :
    FirstErr tr.dev (monteCarloIntegrator debugFlags tr blockReq) := by
  unfold monteCarloIntegrator
  exact firstErr_seqR (firstErr_step tr.dev _)
    (firstErr_seqR (firstErr_capture tr.dev _ _ _ _ _)
    (firstErr_seqR (firstErr_capture tr.dev _ _ _ _ _)
      (firstErr_loop debugFlags tr blockReq _ _ blockReq.numBounces 0 0)))

/-! Trace matching: every run's call trace is an initial segment of the
corresponding full call list, and equals it exactly when the run returns no
error. -/

def TraceMatches (spec : List DeviceCall) (r : RunResult ε) : Prop :=
  (∃ rest, r.1 ++ rest = spec) ∧ (r.2 = none → r.1 = spec)

theorem tm_nil : TraceMatches [] (([], none) : RunResult ε) :=
  ⟨⟨[], rfl⟩, fun _ => rfl⟩

theorem tm_step (dev : DeviceCall → Option ε) (c : DeviceCall) :
    TraceMatches [c] (stepCall dev c) :=
  ⟨⟨[], by simp [stepCall]⟩, fun _ => rfl⟩

theorem tm_seqR {sa sb : List DeviceCall} {a b : RunResult ε}
    (ha : TraceMatches sa a) (hb : TraceMatches sb b) :
    TraceMatches (sa ++ sb) (seqR a b) := by
  rcases h2 : a.2 with _ | e
  · rw [seqR_none h2]
    have ha1 : a.1 = sa := ha.2 h2
    rcases hb.1 with ⟨rb, hrb⟩
    constructor
    · exact ⟨rb, by rw [List.append_assoc, hrb, ha1]⟩
    · intro hbn
      rw [ha1, hb.2 hbn]
  · rw [seqR_some h2]
    rcases ha.1 with ⟨ra, hra⟩
    constructor
    · exact ⟨ra ++ sb, by rw [← List.append_assoc, hra]⟩
    · intro h; exact Option.noConfusion h

theorem tm_capture (dev : DeviceCall → Option ε) (enabled : Bool) (k : DeviceCall)
    (fw fh : Nat) (f : String) :
    TraceMatches (captureCalls enabled k f) (debugCapture dev enabled k fw fh f) := by
  cases enabled
  · simpa [captureCalls, debugCapture] using (tm_nil : TraceMatches [] _)
  · show TraceMatches (k :: dumpCalls f) (debugCapture dev true k fw fh f)
    rcases hk : dev k with _ | e
    · rcases hc : dev (DeviceCall.createFile f) with _ | e
      · rcases hr : dev DeviceCall.readDebugBuffer with _ | e
        · constructor
          · exact ⟨[], by simp [debugCapture, dumpDebugBuffer, dumpCalls, hk, hc, hr]⟩
          · intro _
            simp [debugCapture, dumpDebugBuffer, dumpCalls, hk, hc, hr]
        · constructor
          · exact ⟨[DeviceCall.encodePng f],
              by simp [debugCapture, dumpDebugBuffer, dumpCalls, hk, hc, hr]⟩
          · intro h
            simp [debugCapture, dumpDebugBuffer, hk, hc, hr] at h
      · constructor
        · exact ⟨[DeviceCall.readDebugBuffer, DeviceCall.encodePng f],
            by simp [debugCapture, dumpDebugBuffer, dumpCalls, hk, hc]⟩
        · intro h
          simp [debugCapture, dumpDebugBuffer, hk, hc] at h
    · constructor
      · exact ⟨dumpCalls f, by simp [debugCapture, dumpDebugBuffer, hk]⟩
      · intro h
        simp [debugCapture, dumpDebugBuffer, hk] at h

theorem tm_miss (tr : TracerState ε) (b buf np : Nat) :
    TraceMatches (missCalls tr b buf np) (shadeMissesStep tr b buf np) := by
  unfold missCalls shadeMissesStep
  split
  · split <;> exact tm_step tr.dev _
  · exact tm_nil

theorem tm_iter (debugFlags : Nat) (tr : TracerState ε) (blockReq : BlockRequest)
    (np ne b buf : Nat) :
    TraceMatches (iterCalls debugFlags tr blockReq np ne b buf)
      (bounceIter debugFlags tr blockReq np ne b buf) := by
  unfold bounceIter iterCalls
  exact tm_seqR (tm_miss tr b buf np)
    (tm_seqR (tm_step tr.dev _)
    (tm_seqR (tm_capture tr.dev _ _ _ _ _)
    (tm_seqR (tm_step tr.dev _)
    (tm_seqR (tm_step tr.dev _)
    (tm_seqR (tm_capture tr.dev _ _ _ _ _)
    (tm_seqR (tm_capture tr.dev _ _ _ _ _)
    (tm_seqR (tm_capture tr.dev _ _ _ _ _)
      (tm_capture tr.dev _ _ _ _ _))))))))

theorem tm_loop (debugFlags : Nat) (tr : TracerState ε) (blockReq : BlockRequest)
    (np ne : Nat) :
    ∀ fuel b buf,
      TraceMatches (loopCalls debugFlags tr blockReq np ne fuel b buf)
        (bounceLoop debugFlags tr blockReq np ne fuel b buf)
  | 0, _, _ => tm_nil
  | fuel + 1, b, buf => by
    show TraceMatches
      (iterCalls debugFlags tr blockReq np ne b buf ++
        (if b + 1 < blockReq.numBounces then
          DeviceCall.rayIntersectionQuery (1 - buf) np ::
            loopCalls debugFlags tr blockReq np ne fuel (b + 1) (1 - buf)
        else loopCalls debugFlags tr blockReq np ne fuel (b + 1) buf))
      (seqR (bounceIter debugFlags tr blockReq np ne b buf)
        (if b + 1 < blockReq.numBounces then
          seqR (stepCall tr.dev (DeviceCall.rayIntersectionQuery (1 - buf) np))
            (bounceLoop debugFlags tr blockReq np ne fuel (b + 1) (1 - buf))
        else bounceLoop debugFlags tr blockReq np ne fuel (b + 1) buf))
    refine tm_seqR (tm_iter debugFlags tr blockReq np ne b buf) ?_
    split
    · exact tm_seqR (tm_step tr.dev _)
        (tm_loop debugFlags tr blockReq np ne fuel (b + 1) (1 - buf))
    · exact tm_loop debugFlags tr blockReq np ne fuel (b + 1) buf

theorem tm_integrator (debugFlags : Nat) (tr : TracerState ε) (blockReq : BlockRequest) :
    TraceMatches (integratorCalls debugFlags tr blockReq)
      (monteCarloIntegrator debugFlags tr blockReq) := by
  unfold monteCarloIntegrator integratorCalls
  exact tm_seqR (tm_step tr.dev _)
    (tm_seqR (tm_capture tr.dev _ _ _ _ _)
    (tm_seqR (tm_capture tr.dev _ _ _ _ _)
      (tm_loop debugFlags tr blockReq _ _ blockReq.numBounces 0 0)))

/-! A fully succeeding device: the run returns no error and its trace is
exactly the full call list. -/

theorem run_res_none (debugFlags : Nat) (tr : TracerState ε) (blockReq : BlockRequest)
    (hdev : ∀ c, tr.dev c = none) :
    (monteCarloIntegrator debugFlags tr blockReq).2 = none := by
  rcases h : (monteCarloIntegrator debugFlags tr blockReq).2 with _ | e
  · rfl
  · rcases (firstErr_integrator debugFlags tr blockReq).2 e h with ⟨t, c, _, hc, _⟩
    rw [hdev c] at hc
    exact Option.noConfusion hc

theorem run_ok (debugFlags : Nat) (tr : TracerState ε) (blockReq : BlockRequest)
    (hdev : ∀ c, tr.dev c = none) :
    monteCarloIntegrator debugFlags tr blockReq =
      (integratorCalls debugFlags tr blockReq, none) := by
  have h2 := run_res_none debugFlags tr blockReq hdev
  have h1 := (tm_integrator debugFlags tr blockReq).2 h2
  exact Prod.ext h1 h2

theorem loop_res_none (debugFlags : Nat) (tr : TracerState ε) (blockReq : BlockRequest)
    (np ne fuel b buf : Nat) (hdev : ∀ c, tr.dev c = none) :
    (bounceLoop debugFlags tr blockReq np ne fuel b buf).2 = none := by
  rcases h : (bounceLoop debugFlags tr blockReq np ne fuel b buf).2 with _ | e
  · rfl
  · rcases (firstErr_loop debugFlags tr blockReq np ne fuel b buf).2 e h with ⟨t, c, _, hc, _⟩
    rw [hdev c] at hc
    exact Option.noConfusion hc

theorem loop_ok (debugFlags : Nat) (tr : TracerState ε) (blockReq : BlockRequest)
    (np ne fuel b buf : Nat) (hdev : ∀ c, tr.dev c = none) :
    bounceLoop debugFlags tr blockReq np ne fuel b buf =
      (loopCalls debugFlags tr blockReq np ne fuel b buf, none) := by
  have h2 := loop_res_none debugFlags tr blockReq np ne fuel b buf hdev
  have h1 := (tm_loop debugFlags tr blockReq np ne fuel b buf).2 h2
  exact Prod.ext h1 h2

/-! Pure list facts about the per-iteration call list. -/

theorem iter_countP_swap (debugFlags : Nat) (tr : TracerState ε) (blockReq : BlockRequest)
    (np ne b buf : Nat) :
    (iterCalls debugFlags tr blockReq np ne b buf).countP isRayIntersectionQueryOp = 0 := by
  by_cases hm : tr.sceneDiffuseMatIndex = -1 <;> by_cases hb0 : b = 0 <;>
    simp [iterCalls, missCalls, captureCalls, dumpCalls, hm, hb0, List.countP_append,
      List.countP_cons, apply_ite (List.countP isRayIntersectionQueryOp),
      isRayIntersectionQueryOp]

theorem iter_shadeHits (debugFlags : Nat) (tr : TracerState ε) (blockReq : BlockRequest)
    (np ne b buf : Nat) :
    (iterCalls debugFlags tr blockReq np ne b buf).filterMap shadeHitsBufOf = [(b, buf)] := by
  by_cases hm : tr.sceneDiffuseMatIndex = -1 <;> by_cases hb0 : b = 0 <;>
    simp [iterCalls, missCalls, captureCalls, dumpCalls, hm, hb0, List.filterMap_append,
      apply_ite (List.filterMap shadeHitsBufOf), shadeHitsBufOf]

theorem iter_occlusion (debugFlags : Nat) (tr : TracerState ε) (blockReq : BlockRequest)
    (np ne b buf : Nat) :
    (iterCalls debugFlags tr blockReq np ne b buf).filterMap occlusionBufOf = [2, 2] := by
  by_cases hm : tr.sceneDiffuseMatIndex = -1 <;> by_cases hb0 : b = 0 <;>
    simp [iterCalls, missCalls, captureCalls, dumpCalls, hm, hb0, List.filterMap_append,
      apply_ite (List.filterMap occlusionBufOf), occlusionBufOf]

theorem iter_miss (debugFlags : Nat) (tr : TracerState ε) (blockReq : BlockRequest)
    (np ne b buf : Nat) :
    missShadeSeq (iterCalls debugFlags tr blockReq np ne b buf) =
      missCalls tr b buf np := by
  by_cases hm : tr.sceneDiffuseMatIndex = -1 <;> by_cases hb0 : b = 0 <;>
    simp [missShadeSeq, iterCalls, missCalls, captureCalls, dumpCalls, hm, hb0,
      List.filter_append, apply_ite (List.filter isMissShadeOp), isMissShadeOp]

theorem iter_nonDebug (debugFlags : Nat) (tr : TracerState ε) (blockReq : BlockRequest)
    (np ne b buf : Nat) :
    (iterCalls debugFlags tr blockReq np ne b buf).filter (fun c => !isDebugOp c) =
      missCalls tr b buf np ++
        [DeviceCall.shadeHits b blockReq.minBouncesForRR (tr.seeds b) ne buf np,
         DeviceCall.rayIntersectionTest 2 np,
         DeviceCall.accumulateEmissiveSamples 2 np] := by
  by_cases hm : tr.sceneDiffuseMatIndex = -1 <;> by_cases hb0 : b = 0 <;>
  by_cases h1 : debugFlags &&& Throughput = Throughput <;>
  by_cases h2 : debugFlags &&& AllEmissiveSamples = AllEmissiveSamples <;>
  by_cases h3 : debugFlags &&& VisibleEmissiveSamples = VisibleEmissiveSamples <;>
  by_cases h4 : debugFlags &&& OccludedEmissiveSamples = OccludedEmissiveSamples <;>
  by_cases h5 : debugFlags &&& Accumulator = Accumulator <;>
    simp [iterCalls, missCalls, captureCalls, dumpCalls, hm, hb0, h1, h2, h3, h4, h5,
      isDebugOp]

/-! Pure list facts about the bounce-loop call list, by induction on the
remaining iteration count. -/

theorem loop_occlusion (debugFlags : Nat) (tr : TracerState ε) (blockReq : BlockRequest)
    (np ne : Nat) :
    ∀ fuel b buf,
      (loopCalls debugFlags tr blockReq np ne fuel b buf).filterMap occlusionBufOf =
        List.replicate (2 * fuel) 2
  | 0, _, _ => rfl
  | fuel + 1, b, buf => by
    have ih1 := loop_occlusion debugFlags tr blockReq np ne fuel (b + 1) (1 - buf)
    have ih2 := loop_occlusion debugFlags tr blockReq np ne fuel (b + 1) buf
    have harith : 2 * (fuel + 1) = 2 * fuel + 1 + 1 := by omega
    simp only [loopCalls]
    rw [List.filterMap_append, iter_occlusion, harith]
    split
    · simp [occlusionBufOf, ih1, List.replicate_succ]
    · simp [ih2, List.replicate_succ]

theorem loop_shadeHits (debugFlags : Nat) (tr : TracerState ε) (blockReq : BlockRequest)
    (np ne : Nat) :
    ∀ fuel b buf, b + fuel = blockReq.numBounces → buf ≤ 1 →
      (loopCalls debugFlags tr blockReq np ne fuel b buf).filterMap shadeHitsBufOf =
        (List.range fuel).map (fun k => (b + k, (buf + k) % 2))
  | 0, _, _, _, _ => rfl
  | fuel + 1, b, buf, hb, hbuf => by
    simp only [loopCalls]
    rw [List.filterMap_append, iter_shadeHits]
    by_cases hlt : b + 1 < blockReq.numBounces
    · rw [if_pos hlt]
      have ih := loop_shadeHits debugFlags tr blockReq np ne fuel (b + 1) (1 - buf)
        (by omega) (by omega)
      rw [List.filterMap_cons]
      have hq : shadeHitsBufOf (DeviceCall.rayIntersectionQuery (1 - buf) np) = none := rfl
      rw [hq, ih, List.range_succ_eq_map]
      have hhead : ((b, buf) : Nat × Nat) = (b + 0, (buf + 0) % 2) := by
        have : buf % 2 = buf := Nat.mod_eq_of_lt (by omega)
        simp [this]
      have htail : (List.range fuel).map (fun k => (b + 1 + k, (1 - buf + k) % 2)) =
          (List.range fuel).map ((fun k => (b + k, (buf + k) % 2)) ∘ Nat.succ) := by
        have hfun : (fun k => (b + 1 + k, (1 - buf + k) % 2)) =
            ((fun k => (b + k, (buf + k) % 2)) ∘ Nat.succ) := by
          funext k
          simp only [Function.comp_apply, Nat.succ_eq_add_one]
          exact Prod.ext (by omega) (by omega)
        rw [hfun]
      simp only [List.map_cons, List.map_map]
      rw [← htail, ← hhead]
      rfl
    · rw [if_neg hlt]
      have hf0 : fuel = 0 := by omega
      subst hf0
      simp only [loopCalls, List.filterMap_nil, List.append_nil]
      have : buf % 2 = buf := Nat.mod_eq_of_lt (by omega)
      simp [List.range_succ, this]

theorem loop_swapCount (debugFlags : Nat) (tr : TracerState ε) (blockReq : BlockRequest)
    (np ne : Nat) :
    ∀ fuel b buf, b + fuel = blockReq.numBounces →
      (loopCalls debugFlags tr blockReq np ne fuel b buf).countP isRayIntersectionQueryOp =
        fuel - 1
  | 0, _, _, _ => rfl
  | fuel + 1, b, buf, hb => by
    simp only [loopCalls]
    rw [List.countP_append, iter_countP_swap]
    by_cases hlt : b + 1 < blockReq.numBounces
    · rw [if_pos hlt]
      have ih := loop_swapCount debugFlags tr blockReq np ne fuel (b + 1) (1 - buf) (by omega)
      rw [List.countP_cons, ih]
      have hq : isRayIntersectionQueryOp (DeviceCall.rayIntersectionQuery (1 - buf) np) =
          true := rfl
      rw [hq, if_pos (rfl : true = true)]
      have hfuel : 1 ≤ fuel := by omega
      omega
    · rw [if_neg hlt]
      have hf0 : fuel = 0 := by omega
      subst hf0
      rfl

theorem loop_miss_none (debugFlags : Nat) (tr : TracerState ε) (blockReq : BlockRequest)
    (np ne : Nat) (hm : tr.sceneDiffuseMatIndex = -1) :
    ∀ fuel b buf, missShadeSeq (loopCalls debugFlags tr blockReq np ne fuel b buf) = []
  | 0, _, _ => rfl
  | fuel + 1, b, buf => by
    have ih1 := loop_miss_none debugFlags tr blockReq np ne hm fuel (b + 1) (1 - buf)
    have ih2 := loop_miss_none debugFlags tr blockReq np ne hm fuel (b + 1) buf
    have hiter := iter_miss debugFlags tr blockReq np ne b buf
    simp only [loopCalls, missShadeSeq] at *
    rw [List.filter_append, hiter]
    split
    · simp [missCalls, hm, isMissShadeOp, ih1]
    · simp [missCalls, hm, ih2]

theorem loop_miss_some (debugFlags : Nat) (tr : TracerState ε) (blockReq : BlockRequest)
    (np ne : Nat) (hm : ¬tr.sceneDiffuseMatIndex = -1) :
    ∀ fuel b buf, b + fuel = blockReq.numBounces → buf ≤ 1 →
      missShadeSeq (loopCalls debugFlags tr blockReq np ne fuel b buf) =
        (List.range fuel).map (fun k =>
          if b + k = 0 then
            DeviceCall.shadePrimaryRayMisses
              (Int.toNat (tr.sceneDiffuseMatIndex % (2 ^ 32))) ((buf + k) % 2) np
          else
            DeviceCall.shadeIndirectRayMisses
              (Int.toNat (tr.sceneDiffuseMatIndex % (2 ^ 32))) ((buf + k) % 2) np)
  | 0, _, _, _, _ => rfl
  | fuel + 1, b, buf, hb, hbuf => by
    have hiter := iter_miss debugFlags tr blockReq np ne b buf
    simp only [missShadeSeq] at *
    simp only [loopCalls]
    rw [List.filter_append, hiter]
    have hmiss : missCalls tr b buf np =
        [if b = 0 then
          DeviceCall.shadePrimaryRayMisses
            (Int.toNat (tr.sceneDiffuseMatIndex % (2 ^ 32))) buf np
        else
          DeviceCall.shadeIndirectRayMisses
            (Int.toNat (tr.sceneDiffuseMatIndex % (2 ^ 32))) buf np] := by
      simp [missCalls, hm]
    rw [hmiss]
    by_cases hlt : b + 1 < blockReq.numBounces
    · rw [if_pos hlt]
      have ih := loop_miss_some debugFlags tr blockReq np ne hm fuel (b + 1) (1 - buf)
        (by omega) (by omega)
      simp only [missShadeSeq] at ih
      rw [List.filter_cons]
      have hq : isRayIntersectionQueryOp (DeviceCall.rayIntersectionQuery (1 - buf) np) =
          true := rfl
      have hqm : isMissShadeOp (DeviceCall.rayIntersectionQuery (1 - buf) np) = false := rfl
      rw [hqm]
      simp only [Bool.false_eq_true, if_false, ih, List.range_succ_eq_map]
      have hhead : (if b = 0 then
            DeviceCall.shadePrimaryRayMisses
              (Int.toNat (tr.sceneDiffuseMatIndex % (2 ^ 32))) buf np
          else
            DeviceCall.shadeIndirectRayMisses
              (Int.toNat (tr.sceneDiffuseMatIndex % (2 ^ 32))) buf np) =
          (if b + 0 = 0 then
            DeviceCall.shadePrimaryRayMisses
              (Int.toNat (tr.sceneDiffuseMatIndex % (2 ^ 32))) ((buf + 0) % 2) np
          else
            DeviceCall.shadeIndirectRayMisses
              (Int.toNat (tr.sceneDiffuseMatIndex % (2 ^ 32))) ((buf + 0) % 2) np) := by
        have : buf % 2 = buf := Nat.mod_eq_of_lt (by omega)
        simp [this]
      have htail : (List.range fuel).map (fun k =>
            if b + 1 + k = 0 then
              DeviceCall.shadePrimaryRayMisses
                (Int.toNat (tr.sceneDiffuseMatIndex % (2 ^ 32))) ((1 - buf + k) % 2) np
            else
              DeviceCall.shadeIndirectRayMisses
                (Int.toNat (tr.sceneDiffuseMatIndex % (2 ^ 32))) ((1 - buf + k) % 2) np) =
          (List.range fuel).map ((fun k =>
            if b + k = 0 then
              DeviceCall.shadePrimaryRayMisses
                (Int.toNat (tr.sceneDiffuseMatIndex % (2 ^ 32))) ((buf + k) % 2) np
            else
              DeviceCall.shadeIndirectRayMisses
                (Int.toNat (tr.sceneDiffuseMatIndex % (2 ^ 32))) ((buf + k) % 2) np) ∘
              Nat.succ) := by
        have hfun : ∀ k : Nat,
            (if b + 1 + k = 0 then
              DeviceCall.shadePrimaryRayMisses
                (Int.toNat (tr.sceneDiffuseMatIndex % (2 ^ 32))) ((1 - buf + k) % 2) np
            else
              DeviceCall.shadeIndirectRayMisses
                (Int.toNat (tr.sceneDiffuseMatIndex % (2 ^ 32))) ((1 - buf + k) % 2) np) =
            (if b + (k + 1) = 0 then
              DeviceCall.shadePrimaryRayMisses
                (Int.toNat (tr.sceneDiffuseMatIndex % (2 ^ 32))) ((buf + (k + 1)) % 2) np
            else
              DeviceCall.shadeIndirectRayMisses
                (Int.toNat (tr.sceneDiffuseMatIndex % (2 ^ 32))) ((buf + (k + 1)) % 2) np) := by
          intro k
          have harg : (1 - buf + k) % 2 = (buf + (k + 1)) % 2 := by omega
          rw [if_neg (by omega : ¬b + 1 + k = 0), if_neg (by omega : ¬b + (k + 1) = 0), harg]
        exact List.map_congr_left fun k _ => hfun k
      simp only [List.map_cons, List.map_map]
      rw [← htail, ← hhead]
      rfl
    · rw [if_neg hlt]
      have hf0 : fuel = 0 := by omega
      subst hf0
      simp only [loopCalls, missShadeSeq, List.filter_nil, List.append_nil]
      have : buf % 2 = buf := Nat.mod_eq_of_lt (by omega)
      simp [List.range_succ, this]

theorem loop_nonDebug (debugFlagsA debugFlagsB : Nat) (tr : TracerState ε)
    (blockReq : BlockRequest) (np ne : Nat) :
    ∀ fuel b buf,
      (loopCalls debugFlagsA tr blockReq np ne fuel b buf).filter (fun c => !isDebugOp c) =
      (loopCalls debugFlagsB tr blockReq np ne fuel b buf).filter (fun c => !isDebugOp c)
  | 0, _, _ => rfl
  | fuel + 1, b, buf => by
    simp only [loopCalls]
    rw [List.filter_append, List.filter_append, iter_nonDebug, iter_nonDebug]
    by_cases hlt : b + 1 < blockReq.numBounces
    · rw [if_pos hlt, if_pos hlt, List.filter_cons, List.filter_cons,
        loop_nonDebug debugFlagsA debugFlagsB tr blockReq np ne fuel (b + 1) (1 - buf)]
    · rw [if_neg hlt, if_neg hlt,
        loop_nonDebug debugFlagsA debugFlagsB tr blockReq np ne fuel (b + 1) buf]

theorem loop_shadeHits_le (debugFlags : Nat) (tr : TracerState ε) (blockReq : BlockRequest)
    (np ne : Nat) :
    ∀ fuel b buf, buf ≤ 1 →
      ∀ pr ∈ (loopCalls debugFlags tr blockReq np ne fuel b buf).filterMap shadeHitsBufOf,
        pr.2 ≤ 1
  | 0, _, _, _, pr, h => absurd h (List.not_mem_nil pr)
  | fuel + 1, b, buf, hbuf, pr, h => by
    rw [loopCalls, List.filterMap_append, iter_shadeHits] at h
    rcases List.mem_append.mp h with h1 | h2
    · rcases List.mem_singleton.mp h1
      exact hbuf
    · by_cases hlt : b + 1 < blockReq.numBounces
      · rw [if_pos hlt, List.filterMap_cons] at h2
        have hq : shadeHitsBufOf (DeviceCall.rayIntersectionQuery (1 - buf) np) = none := rfl
        rw [hq] at h2
        exact loop_shadeHits_le debugFlags tr blockReq np ne fuel (b + 1) (1 - buf)
          (by omega) pr h2
      · rw [if_neg hlt] at h2
        exact loop_shadeHits_le debugFlags tr blockReq np ne fuel (b + 1) buf hbuf pr h2

/-! Assembly at the level of the full integrator call list: the primary query
and the two primary-ray debug captures contribute nothing to the classifiers
of interest, so everything reduces to the bounce loop. -/

theorem capture_filter_nonDebug (k : DeviceCall) (hk : isDebugOp k = true) (enabled : Bool)
    (f : String) :
    (captureCalls enabled k f).filter (fun c => !isDebugOp c) = [] := by
  cases enabled
  · simp [captureCalls]
  · simp [captureCalls, dumpCalls, hk]
    exact ⟨rfl, rfl, rfl⟩

theorem integrator_occlusion (debugFlags : Nat) (tr : TracerState ε)
    (blockReq : BlockRequest) :
    (integratorCalls debugFlags tr blockReq).filterMap occlusionBufOf =
      List.replicate (2 * blockReq.numBounces) 2 := by
  by_cases hg : tr.deviceType = DeviceType.gpuDevice <;>
  by_cases hd : debugFlags &&& PrimaryRayIntersectionDepth = PrimaryRayIntersectionDepth <;>
  by_cases hn : debugFlags &&& PrimaryRayIntersectionNormals = PrimaryRayIntersectionNormals <;>
    simp [integratorCalls, captureCalls, dumpCalls, hg, hd, hn, List.filterMap_append,
      occlusionBufOf, loop_occlusion]

theorem integrator_shadeHits (debugFlags : Nat) (tr : TracerState ε)
    (blockReq : BlockRequest) :
    (integratorCalls debugFlags tr blockReq).filterMap shadeHitsBufOf =
      (loopCalls debugFlags tr blockReq (blockReq.frameW * blockReq.blockH % 2 ^ 32)
        (tr.emissivePrimitivesLen % 2 ^ 32) blockReq.numBounces 0 0).filterMap
        shadeHitsBufOf := by
  by_cases hg : tr.deviceType = DeviceType.gpuDevice <;>
  by_cases hd : debugFlags &&& PrimaryRayIntersectionDepth = PrimaryRayIntersectionDepth <;>
  by_cases hn : debugFlags &&& PrimaryRayIntersectionNormals = PrimaryRayIntersectionNormals <;>
    simp [integratorCalls, captureCalls, dumpCalls, hg, hd, hn, List.filterMap_append,
      shadeHitsBufOf]

theorem integrator_swapCount (debugFlags : Nat) (tr : TracerState ε)
    (blockReq : BlockRequest) :
    (integratorCalls debugFlags tr blockReq).countP isRayIntersectionQueryOp =
      (if tr.deviceType = DeviceType.gpuDevice then 0 else 1) +
      (loopCalls debugFlags tr blockReq (blockReq.frameW * blockReq.blockH % 2 ^ 32)
        (tr.emissivePrimitivesLen % 2 ^ 32) blockReq.numBounces 0 0).countP
        isRayIntersectionQueryOp := by
  by_cases hg : tr.deviceType = DeviceType.gpuDevice <;>
  by_cases hd : debugFlags &&& PrimaryRayIntersectionDepth = PrimaryRayIntersectionDepth <;>
  by_cases hn : debugFlags &&& PrimaryRayIntersectionNormals = PrimaryRayIntersectionNormals <;>
    simp [integratorCalls, captureCalls, dumpCalls, hg, hd, hn, List.countP_append,
      List.countP_cons, isRayIntersectionQueryOp] <;> omega

theorem integrator_miss (debugFlags : Nat) (tr : TracerState ε) (blockReq : BlockRequest) :
    missShadeSeq (integratorCalls debugFlags tr blockReq) =
      missShadeSeq (loopCalls debugFlags tr blockReq
        (blockReq.frameW * blockReq.blockH % 2 ^ 32)
        (tr.emissivePrimitivesLen % 2 ^ 32) blockReq.numBounces 0 0) := by
  by_cases hg : tr.deviceType = DeviceType.gpuDevice <;>
  by_cases hd : debugFlags &&& PrimaryRayIntersectionDepth = PrimaryRayIntersectionDepth <;>
  by_cases hn : debugFlags &&& PrimaryRayIntersectionNormals = PrimaryRayIntersectionNormals <;>
    simp [missShadeSeq, integratorCalls, captureCalls, dumpCalls, hg, hd, hn,
      List.filter_append, isMissShadeOp]

theorem integrator_nonDebug (debugFlags : Nat) (tr : TracerState ε)
    (blockReq : BlockRequest) :
    (integratorCalls debugFlags tr blockReq).filter (fun c => !isDebugOp c) =
      (if tr.deviceType = DeviceType.gpuDevice then
        DeviceCall.rayPacketIntersectionQuery 0 (blockReq.frameW * blockReq.blockH % 2 ^ 32)
      else
        DeviceCall.rayIntersectionQuery 0 (blockReq.frameW * blockReq.blockH % 2 ^ 32)) ::
      (loopCalls debugFlags tr blockReq (blockReq.frameW * blockReq.blockH % 2 ^ 32)
        (tr.emissivePrimitivesLen % 2 ^ 32) blockReq.numBounces 0 0).filter
        (fun c => !isDebugOp c) := by
  simp only [integratorCalls, List.filter_cons, List.filter_append,
    capture_filter_nonDebug (DeviceCall.debugRayIntersectionDepth 0) rfl,
    capture_filter_nonDebug (DeviceCall.debugRayIntersectionNormals 0) rfl,
    List.nil_append]
  by_cases hg : tr.deviceType = DeviceType.gpuDevice <;>
    simp [hg, isDebugOp]

/-- The first recorded call of a step-then-continue sequence is the step's
call, whether or not it succeeds. -/
theorem head_seqR_step (dev : DeviceCall → Option ε) (c : DeviceCall) (r : RunResult ε) :
    (seqR (stepCall dev c) r).1.head? = some c := by
  rcases h : dev c with _ | e <;> simp [seqR, stepCall, h]

/-- The packet intersection query computes exactly the per-ray intersection
query: processing rays four at a time with the same per-ray intersection
function yields the per-ray map. -/
theorem rayPacketIntersectAll_eq (intersect : ray → hit) :
    ∀ rays, rayPacketIntersectAll intersect rays = rayIntersectAll intersect rays
  | [] => rfl
  | [a] => rfl
  | [a, b] => rfl
  | [a, b, c] => rfl
  | a :: b :: c :: d :: rest => by
    simp only [rayPacketIntersectAll, rayIntersectAll, List.map_cons]
    rw [rayPacketIntersectAll_eq intersect rest]
    rfl

/-! Concrete fixtures used by the witness theorems: a device on which every
call succeeds, one failing exactly at the bounce-1 hit-shading dispatch, and
a small block request with three bounces. -/

def okDev : DeviceCall → Option Nat := fun _ => none

def failShadeHitsDev : DeviceCall → Option Nat := fun c =>
  match c with
  | DeviceCall.shadeHits b _ _ _ _ _ => if b = 1 then some 7 else none
  | _ => none

def demoReq : BlockRequest :=
  { blockY := 0, blockH := 2, frameW := 4, frameH := 4, samplesPerPixel := 1,
    numBounces := 3, minBouncesForRR := 2 }

def demoReqZero : BlockRequest :=
  { blockY := 0, blockH := 2, frameW := 4, frameH := 4, samplesPerPixel := 1,
    numBounces := 0, minBouncesForRR := 0 }

def demoTracer : TracerState Nat :=
  { deviceType := DeviceType.gpuDevice, sceneDiffuseMatIndex := 5,
    emissivePrimitivesLen := 2, dev := okDev, seeds := fun _ => 0 }

def failTracer : TracerState Nat :=
  { deviceType := DeviceType.gpuDevice, sceneDiffuseMatIndex := 5,
    emissivePrimitivesLen := 2, dev := failShadeHitsDev, seeds := fun _ => 0 }

def demoCounters : Nat → Option Nat × Nat := fun _ => (some 9, 5)

def demoCountersOk : Nat → Option Nat × Nat := fun _ => (none, 5)

/-- C1: if any device operation invoked by the Monte Carlo integrator returns
a non-nil error, the integrator returns that first error immediately: its
call trace is a run of succeeding calls followed by exactly the failing call
that produced the returned error, and no further device call (shading,
intersection, accumulation or debug capture) is made.  The elapsed time the
Go code also returns is wall-clock time and outside the embedding. -/
theorem integrator_aborts_on_first_error (debugFlags : Nat) (tr : TracerState ε)
    (blockReq : BlockRequest) (e : ε)
    (herr : (monteCarloIntegrator debugFlags tr blockReq).2 = some e) :
    ∃ t c, (monteCarloIntegrator debugFlags tr blockReq).1 = t ++ [c] ∧
      tr.dev c = some e ∧ ∀ x ∈ t, tr.dev x = none :=
  (firstErr_integrator debugFlags tr blockReq).2 e herr

theorem integrator_aborts_on_first_error_witness :
    (monteCarloIntegrator 0 failTracer demoReq).2 = some 7 ∧
    ∃ t c, (monteCarloIntegrator 0 failTracer demoReq).1 = t ++ [c] ∧
      failTracer.dev c = some 7 ∧ ∀ x ∈ t, failTracer.dev x = none :=
  ⟨by decide, integrator_aborts_on_first_error 0 failTracer demoReq 7 (by decide)⟩

/-- C7: a debug-buffer dump first checks whether the preceding debug kernel
call failed, and if so returns exactly that error with no file creation,
readback or encode call; when the kernel call succeeded, any returned error
is the error of the first failing file/readback/encode step. -/
theorem dump_debug_buffer_error_priority (dev : DeviceCall → Option ε)
    (frameW frameH : Nat) (imgFile : String) (e : ε) :
    dumpDebugBuffer dev (some e) frameW frameH imgFile = ([], some e) ∧
    (∀ e2, (dumpDebugBuffer dev none frameW frameH imgFile).2 = some e2 →
      dev (DeviceCall.createFile imgFile) = some e2 ∨
      (dev (DeviceCall.createFile imgFile) = none ∧
        dev DeviceCall.readDebugBuffer = some e2) ∨
      (dev (DeviceCall.createFile imgFile) = none ∧
        dev DeviceCall.readDebugBuffer = none ∧
        dev (DeviceCall.encodePng imgFile) = some e2)) := by
  refine ⟨rfl, ?_⟩
  intro e2 h2
  rcases hc : dev (DeviceCall.createFile imgFile) with _ | ec
  · rcases hr : dev DeviceCall.readDebugBuffer with _ | er
    · rcases he : dev (DeviceCall.encodePng imgFile) with _ | ee
      · simp [dumpDebugBuffer, hc, hr, he] at h2
      · simp [dumpDebugBuffer, hc, hr, he] at h2
        subst h2
        simp
    · simp [dumpDebugBuffer, hc, hr] at h2
      subst h2
      simp
  · simp [dumpDebugBuffer, hc] at h2
    subst h2
    simp

theorem dump_debug_buffer_error_priority_witness :
    dumpDebugBuffer okDev (some 5) 4 4 "debug-fb.png" = ([], some 5) :=
  (dump_debug_buffer_error_priority okDev 4 4 "debug-fb.png" 5).1

/-- C9: the DebugFlag constant block yields NoDebug = 0 and, because the
first named flag is 1 << iota at iota = 1, the k-th named flag (in
declaration order) has value 2 ^ k rather than 2 ^ (k-1): bit 0 is unused
and the bit positions are shifted by one, while all named flags remain
pairwise-distinct powers of two with disjoint bits, so mask tests stay
independent. -/
theorem debug_flag_constant_values :
    NoDebug = 0 ∧
    PrimaryRayIntersectionDepth = 2 ∧ PrimaryRayIntersectionNormals = 4 ∧
    AllEmissiveSamples = 8 ∧ VisibleEmissiveSamples = 16 ∧
    OccludedEmissiveSamples = 32 ∧ Throughput = 64 ∧ Accumulator = 128 ∧
    FrameBuffer = 256 ∧
    PrimaryRayIntersectionDepth = 2 ^ 1 ∧ PrimaryRayIntersectionNormals = 2 ^ 2 ∧
    AllEmissiveSamples = 2 ^ 3 ∧ VisibleEmissiveSamples = 2 ^ 4 ∧
    OccludedEmissiveSamples = 2 ^ 5 ∧ Throughput = 2 ^ 6 ∧ Accumulator = 2 ^ 7 ∧
    FrameBuffer = 2 ^ 8 ∧
    List.Pairwise (fun a b => a ≠ b ∧ a &&& b = 0)
      [PrimaryRayIntersectionDepth, PrimaryRayIntersectionNormals, AllEmissiveSamples,
       VisibleEmissiveSamples, OccludedEmissiveSamples, Throughput, Accumulator,
       FrameBuffer] ∧
    (∀ fl ∈ [PrimaryRayIntersectionDepth, PrimaryRayIntersectionNormals,
       AllEmissiveSamples, VisibleEmissiveSamples, OccludedEmissiveSamples, Throughput,
       Accumulator, FrameBuffer], fl &&& 1 = 0) := by
  decide

/-- C10: readCounter never inspects the error of the counter ReadData call
and returns the output slot value regardless, so a failed readback is
indistinguishable to its caller from a successful read of the same slot
value. -/
theorem read_counter_ignores_read_error (counters countersB : Nat → Option ε × Nat)
    (counterIndex : Nat)
    (hsame : (counters counterIndex).2 = (countersB counterIndex).2) :
    readCounter counters counterIndex = (counters counterIndex).2 ∧
    readCounter counters counterIndex = readCounter countersB counterIndex :=
  ⟨rfl, by simp [readCounter, hsame]⟩

theorem read_counter_ignores_read_error_witness :
    (demoCounters 0).2 = (demoCountersOk 0).2 ∧
    (readCounter demoCounters 0 = (demoCounters 0).2 ∧
      readCounter demoCounters 0 = readCounter demoCountersOk 0) :=
  ⟨rfl, read_counter_ignores_read_error demoCounters demoCountersOk 0 rfl⟩

/-- C8: the primary-ray intersection records the packet intersection query
exactly when the device is a GPU device and the per-ray query otherwise (the
first call of every run), and the two query forms compute identical
intersection results (the packet form is the per-ray map, processed four
rays at a time). -/
theorem primary_query_device_choice (debugFlags : Nat) (tr : TracerState ε)
    (blockReq : BlockRequest) {ray hit : Type} (intersect : ray → hit) (rays : List ray) :
    (monteCarloIntegrator debugFlags tr blockReq).1.head? =
      some (if tr.deviceType = DeviceType.gpuDevice then
        DeviceCall.rayPacketIntersectionQuery 0 (blockReq.frameW * blockReq.blockH % 2 ^ 32)
      else
        DeviceCall.rayIntersectionQuery 0 (blockReq.frameW * blockReq.blockH % 2 ^ 32)) ∧
    rayPacketIntersectAll intersect rays = rayIntersectAll intersect rays := by
  constructor
  · simp only [monteCarloIntegrator]
    exact head_seqR_step tr.dev _ _
  · exact rayPacketIntersectAll_eq intersect rays

/-- C5: every occlusion-ray intersection test and every emissive-sample
accumulation recorded in any run uses the fixed ray buffer index 2, while
every hit-shading call uses a ping-pong buffer index strictly below 2, for
every bounce and any device behavior. -/
theorem occlusion_stage_fixed_buffer_two (debugFlags : Nat) (tr : TracerState ε)
    (blockReq : BlockRequest) :
    ((monteCarloIntegrator debugFlags tr blockReq).1.filterMap occlusionBufOf).all
      (fun i => i == 2) = true ∧
    ((monteCarloIntegrator debugFlags tr blockReq).1.filterMap shadeHitsBufOf).all
      (fun pr => decide (pr.2 < 2)) = true := by
  obtain ⟨rest, hrest⟩ := (tm_integrator debugFlags tr blockReq).1
  constructor
  · have hall : ((integratorCalls debugFlags tr blockReq).filterMap occlusionBufOf).all
        (fun i => i == 2) = true := by
      rw [integrator_occlusion, List.all_eq_true]
      intro i hi
      have hv := List.eq_of_mem_replicate hi
      simp [hv]
    rw [← hrest, List.filterMap_append, List.all_append, Bool.and_eq_true] at hall
    exact hall.1
  · rw [List.all_eq_true]
    intro pr hpr
    have hmem : pr ∈ (integratorCalls debugFlags tr blockReq).filterMap shadeHitsBufOf := by
      rw [← hrest, List.filterMap_append]
      exact List.mem_append_left _ hpr
    rw [integrator_shadeHits] at hmem
    have hle := loop_shadeHits_le debugFlags tr blockReq
      (blockReq.frameW * blockReq.blockH % 2 ^ 32) (tr.emissivePrimitivesLen % 2 ^ 32)
      blockReq.numBounces 0 0 (by omega) pr hmem
    simp only [decide_eq_true_eq]
    omega

/-- C2: with all device calls succeeding and at least one bounce, the
hit-shading calls of a run are exactly one per bounce, in order, with the
active ray buffer index b mod 2: it starts at 0, flips once at every bounce
boundary that another bounce follows, is always 0 or 1, and exactly
numBounces - 1 indirect intersection queries (buffer swaps) are recorded
inside the loop (the per-ray query also serves the primary intersection on a
CPU device, hence the device-dependent offset). -/
theorem integrator_ray_buffer_alternation (debugFlags : Nat) (tr : TracerState ε)
    (blockReq : BlockRequest) (hn : 1 ≤ blockReq.numBounces)
    (hdev : ∀ c, tr.dev c = none) :
    shadeHitsRayBufs (monteCarloIntegrator debugFlags tr blockReq).1 =
      (List.range blockReq.numBounces).map (fun b => (b, b % 2)) ∧
    (monteCarloIntegrator debugFlags tr blockReq).1.countP isRayIntersectionQueryOp =
      (if tr.deviceType = DeviceType.gpuDevice then 0 else 1) +
        (blockReq.numBounces - 1) := by
  rw [run_ok debugFlags tr blockReq hdev]
  constructor
  · show shadeHitsRayBufs (integratorCalls debugFlags tr blockReq) = _
    simp only [shadeHitsRayBufs]
    rw [integrator_shadeHits, loop_shadeHits debugFlags tr blockReq
      (blockReq.frameW * blockReq.blockH % 2 ^ 32) (tr.emissivePrimitivesLen % 2 ^ 32)
      blockReq.numBounces 0 0 (by omega) (by omega)]
    simp
  · show (integratorCalls debugFlags tr blockReq).countP isRayIntersectionQueryOp = _
    rw [integrator_swapCount, loop_swapCount debugFlags tr blockReq
      (blockReq.frameW * blockReq.blockH % 2 ^ 32) (tr.emissivePrimitivesLen % 2 ^ 32)
      blockReq.numBounces 0 0 (by omega)]

theorem integrator_ray_buffer_alternation_witness :
    1 ≤ demoReq.numBounces ∧
    (shadeHitsRayBufs (monteCarloIntegrator 0 demoTracer demoReq).1 =
      (List.range demoReq.numBounces).map (fun b => (b, b % 2)) ∧
    (monteCarloIntegrator 0 demoTracer demoReq).1.countP isRayIntersectionQueryOp =
      (if demoTracer.deviceType = DeviceType.gpuDevice then 0 else 1) +
        (demoReq.numBounces - 1)) :=
  ⟨by decide,
    integrator_ray_buffer_alternation 0 demoTracer demoReq (by decide) (fun c => rfl)⟩

/-- C3: with numBounces = 0 and all device calls succeeding, the integrator
records exactly one intersection query (the primary one, in either form) and
no miss-shading, hit-shading, occlusion-test or emissive-accumulation call,
and returns no error. -/
theorem integrator_zero_bounces (debugFlags : Nat) (tr : TracerState ε)
    (blockReq : BlockRequest) (h0 : blockReq.numBounces = 0)
    (hdev : ∀ c, tr.dev c = none) :
    (monteCarloIntegrator debugFlags tr blockReq).2 = none ∧
    (monteCarloIntegrator debugFlags tr blockReq).1.countP isIntersectionQueryOp = 1 ∧
    (monteCarloIntegrator debugFlags tr blockReq).1.countP isMissShadeOp = 0 ∧
    (monteCarloIntegrator debugFlags tr blockReq).1.countP isShadeHitsOp = 0 ∧
    (monteCarloIntegrator debugFlags tr blockReq).1.countP isIntersectionTestOp = 0 ∧
    (monteCarloIntegrator debugFlags tr blockReq).1.countP isAccumulateOp = 0 := by
  rw [run_ok debugFlags tr blockReq hdev]
  refine ⟨rfl, ?_, ?_, ?_, ?_, ?_⟩ <;>
  · by_cases hg : tr.deviceType = DeviceType.gpuDevice <;>
    by_cases hd : debugFlags &&& PrimaryRayIntersectionDepth =
      PrimaryRayIntersectionDepth <;>
    by_cases hn2 : debugFlags &&& PrimaryRayIntersectionNormals =
      PrimaryRayIntersectionNormals <;>
      simp [integratorCalls, captureCalls, dumpCalls, loopCalls, h0, hg, hd, hn2,
        List.countP_append, List.countP_cons, isIntersectionQueryOp, isMissShadeOp,
        isShadeHitsOp, isIntersectionTestOp, isAccumulateOp]

theorem integrator_zero_bounces_witness :
    demoReqZero.numBounces = 0 ∧
    ((monteCarloIntegrator 0 demoTracer demoReqZero).2 = none ∧
    (monteCarloIntegrator 0 demoTracer demoReqZero).1.countP isIntersectionQueryOp = 1 ∧
    (monteCarloIntegrator 0 demoTracer demoReqZero).1.countP isMissShadeOp = 0 ∧
    (monteCarloIntegrator 0 demoTracer demoReqZero).1.countP isShadeHitsOp = 0 ∧
    (monteCarloIntegrator 0 demoTracer demoReqZero).1.countP isIntersectionTestOp = 0 ∧
    (monteCarloIntegrator 0 demoTracer demoReqZero).1.countP isAccumulateOp = 0) :=
  ⟨rfl, integrator_zero_bounces 0 demoTracer demoReqZero rfl (fun c => rfl)⟩

/-- C4: with all device calls succeeding, the miss-shading calls of a run
are empty when the scene has no background material (index -1), and
otherwise exactly one per bounce, the primary-miss variant exactly at
bounce 0 and the indirect-miss variant at every later bounce, on the active
buffer of that bounce. -/
theorem integrator_miss_shading_variants (debugFlags : Nat) (tr : TracerState ε)
    (blockReq : BlockRequest) (hdev : ∀ c, tr.dev c = none) :
    missShadeSeq (monteCarloIntegrator debugFlags tr blockReq).1 =
      (if tr.sceneDiffuseMatIndex = -1 then [] else
        (List.range blockReq.numBounces).map (fun b =>
          if b = 0 then
            DeviceCall.shadePrimaryRayMisses
              (Int.toNat (tr.sceneDiffuseMatIndex % (2 ^ 32))) (b % 2)
              (blockReq.frameW * blockReq.blockH % 2 ^ 32)
          else
            DeviceCall.shadeIndirectRayMisses
              (Int.toNat (tr.sceneDiffuseMatIndex % (2 ^ 32))) (b % 2)
              (blockReq.frameW * blockReq.blockH % 2 ^ 32))) := by
  rw [run_ok debugFlags tr blockReq hdev]
  show missShadeSeq (integratorCalls debugFlags tr blockReq) = _
  rw [integrator_miss]
  by_cases hm : tr.sceneDiffuseMatIndex = -1
  · rw [if_pos hm, loop_miss_none debugFlags tr blockReq
      (blockReq.frameW * blockReq.blockH % 2 ^ 32) (tr.emissivePrimitivesLen % 2 ^ 32) hm]
  · rw [if_neg hm, loop_miss_some debugFlags tr blockReq
      (blockReq.frameW * blockReq.blockH % 2 ^ 32) (tr.emissivePrimitivesLen % 2 ^ 32) hm
      blockReq.numBounces 0 0 (by omega) (by omega)]
    simp

theorem integrator_miss_shading_variants_witness :
    missShadeSeq (monteCarloIntegrator 0 demoTracer demoReq).1 =
      (if demoTracer.sceneDiffuseMatIndex = -1 then [] else
        (List.range demoReq.numBounces).map (fun b =>
          if b = 0 then
            DeviceCall.shadePrimaryRayMisses
              (Int.toNat (demoTracer.sceneDiffuseMatIndex % (2 ^ 32))) (b % 2)
              (demoReq.frameW * demoReq.blockH % 2 ^ 32)
          else
            DeviceCall.shadeIndirectRayMisses
              (Int.toNat (demoTracer.sceneDiffuseMatIndex % (2 ^ 32))) (b % 2)
              (demoReq.frameW * demoReq.blockH % 2 ^ 32))) :=
  integrator_miss_shading_variants 0 demoTracer demoReq (fun c => rfl)

/-- C6: with all device calls succeeding, a run with any debug flag
combination records exactly the same sequence of non-debug device calls as a
run with no flags set, and both return no error: debug flags only add
capture side effects (debug kernels, file creation, readback, encode). -/
theorem debug_flags_pure_side_channel (debugFlags : Nat) (tr : TracerState ε)
    (blockReq : BlockRequest) (hdev : ∀ c, tr.dev c = none) :
    (monteCarloIntegrator debugFlags tr blockReq).1.filter (fun c => !isDebugOp c) =
      (monteCarloIntegrator NoDebug tr blockReq).1.filter (fun c => !isDebugOp c) ∧
    (monteCarloIntegrator debugFlags tr blockReq).2 = none ∧
    (monteCarloIntegrator NoDebug tr blockReq).2 = none := by
  rw [run_ok debugFlags tr blockReq hdev, run_ok NoDebug tr blockReq hdev]
  refine ⟨?_, rfl, rfl⟩
  show (integratorCalls debugFlags tr blockReq).filter (fun c => !isDebugOp c) =
    (integratorCalls NoDebug tr blockReq).filter (fun c => !isDebugOp c)
  rw [integrator_nonDebug, integrator_nonDebug,
    loop_nonDebug debugFlags NoDebug tr blockReq
      (blockReq.frameW * blockReq.blockH % 2 ^ 32)
      (tr.emissivePrimitivesLen % 2 ^ 32) blockReq.numBounces 0 0]

theorem debug_flags_pure_side_channel_witness :
    ((monteCarloIntegrator 66 demoTracer demoReq).1.filter (fun c => !isDebugOp c) =
      (monteCarloIntegrator NoDebug demoTracer demoReq).1.filter (fun c => !isDebugOp c) ∧
    (monteCarloIntegrator 66 demoTracer demoReq).2 = none ∧
    (monteCarloIntegrator NoDebug demoTracer demoReq).2 = none) :=
  debug_flags_pure_side_channel 66 demoTracer demoReq (fun c => rfl)

end PolarisCL
